import Mathlib

/-!
# next-terminal, `pkg/api/routes.go`

A shallow embedding of the request gateway of `pkg/api/routes.go`: the token
resolver (`GetToken`), the identity lookup (`GetCurrentAccount`), the ownership
decision (`HasPermission`), the response envelope (`Fail`, `Success`,
`NotFound`) and the route table built by `SetupRoutes`.

Conventions of the embedding.

* Go maps (`http.Header`, `url.Values`, the cache, the JSON object `H`) are
  association lists read with `List.lookup`.
* The process-wide `global.Cache` is passed explicitly; every call made on it is
  appended to a log, so that the number and kind of cache accesses of a
  function can be stated.
* A Go panic (the failed type assertion `get.(Authorization)`) is the `error`
  case of `Except`; so is the error `c.JSON` returns when the JSON encoder
  refuses the payload of `Success`.
* Handlers and middlewares that live in other files are parameters.
-/

namespace NextTerminal

/-! ## Data model -/

/-- Modelled from the spec: `model.User` is declared in another package; the
gateway reads its `ID` and its `Type` only (`Type` is a reserved word here, so
the field is `Type_`). The zero value `model.User{}` has both fields empty. -/
structure User where
  ID : String
  Type_ : String
  deriving DecidableEq, Repr

/-- Modelled from the spec: `Authorization` is declared in another file of the
package; it binds one `User` to one active token. -/
structure Authorization where
  Token : String
  User : User
  deriving DecidableEq, Repr

/-- A value stored in the cache. The cache holds `interface{}` values, so an
entry is either an `Authorization` or something else. -/
inductive CacheValue where
  | authorization (a : Authorization)
  | other (v : String)
  deriving DecidableEq, Repr

/-- The calls a program can make on the cache. -/
inductive CacheOp where
  | get (k : String)
  | set (k : String) (v : CacheValue)
  | delete (k : String)
  deriving DecidableEq, Repr

/-- Modelled from the spec: the identity cache `global.Cache` is a mapping from
token to record with `Get(token) -> (value, found)`; entries the cache has
evicted are absent. `ops` is the log of the calls made on it so far. -/
structure Global where
  Cache : List (String × CacheValue)
  ops : List CacheOp
  deriving DecidableEq, Repr

/-- The call `global.Cache.Get(k)`: one read, logged; the stored entries are
left as they are. -/
def Global.Get (g : Global) (k : String) : (Option CacheValue) × Global :=
  (g.Cache.lookup k, { g with ops := g.ops ++ [CacheOp.get k] })

/-- The number of reads in a log. -/
def reads (ops : List CacheOp) : Nat :=
  (ops.filter fun o => match o with | CacheOp.get _ => true | _ => false).length

/-- The number of writes (`set` or `delete`) in a log. -/
def writes (ops : List CacheOp) : Nat :=
  (ops.filter fun o => match o with | CacheOp.get _ => false | _ => true).length

/-- The part of an `echo.Context` the gateway reads: the request line, the
request headers (`http.Header`, keyed by canonical header name) and the parsed
query string (`url.Values`). -/
structure Context where
  Method : String
  Path : String
  Header : List (String × List String)
  Query : List (String × List String)
  deriving DecidableEq, Repr

/-- The first value stored under `key` in a `map[string][]string`, the empty
string when there is none: what `http.Header.Get` does for a key that is already
in canonical form, and what `url.Values.Get` does. -/
def firstValue (m : List (String × List String)) (key : String) : String :=
  match m.lookup key with
  | some (v :: _) => v
  | _ => ""

/-- The call `c.Request().Header.Get(key)`. -/
def Context.HeaderGet (c : Context) (key : String) : String :=
  firstValue c.Header key

/-- The call `c.QueryParam(name)`. -/
def Context.QueryParam (c : Context) (name : String) : String :=
  firstValue c.Query name

/-! ## Token resolver and authorization decision -/

/-- The constant `Token`; it is in canonical header form already. -/
def Token : String := "X-Auth-Token"

/-- The function `GetToken`. Go's `len(token) > 0` counts bytes; it holds exactly
when the string is not empty. -/
def GetToken (c : Context) : String :=
  let token := c.HeaderGet Token
  if token.length > 0 then
    token
  else
    c.QueryParam Token

/-- The function `GetCurrentAccount`. The type assertion `get.(Authorization)`
panics on an entry that is not an `Authorization`. -/
def GetCurrentAccount (c : Context) (g : Global) : Except String (User × Bool) × Global :=
  let token := GetToken c
  match g.Get token with
  | (some (CacheValue.authorization a), g1) => (Except.ok (a.User, true), g1)
  | (some (CacheValue.other _), g1) => (Except.error "interface conversion", g1)
  | (none, g1) => (Except.ok ({ ID := "", Type_ := "" }, false), g1)

/-- The function `HasPermission`. `TypeAdmin` stands for the constant
`model.TypeAdmin`, declared in another package. -/
def HasPermission (TypeAdmin : String) (c : Context) (owner : String) (g : Global) :
    Except String Bool × Global :=
  match GetCurrentAccount c g with
  | (Except.error e, g1) => (Except.error e, g1)
  | (Except.ok (account, found), g1) =>
    if !found then
      (Except.ok false, g1)
    else if TypeAdmin = account.Type_ then
      (Except.ok true, g1)
    else if owner = account.ID then
      (Except.ok true, g1)
    else
      (Except.ok false, g1)

/-! ## Response envelope -/

/-- A value of the JSON object `H`, a `map[string]interface{}`: the envelope
stores an `int`, a `string`, or the caller's payload, of any type `δ`. -/
inductive Value (δ : Type) where
  | int (n : Int)
  | string (s : String)
  | data (d : δ)
  deriving DecidableEq, Repr

/-- The type `H`. -/
abbrev H (δ : Type) := List (String × Value δ)

/-- What `c.JSON(status, body)` hands to the transport: the status and the
object to be encoded. -/
structure Response (δ : Type) where
  status : Nat
  body : H δ
  deriving DecidableEq, Repr

/-- The call `c.JSON(code, i)` on an object that encodes: the status and the
object reach the transport. -/
def Context.JSON {δ : Type} (_c : Context) (code : Nat) (i : H δ) : Response δ :=
  { status := code, body := i }

/-- Whether the JSON encoder can encode a value of the object: an `int` and a
`string` always encode; for a payload the verdict of the encoder is the
parameter `encodable` (it refuses a channel, a function, a NaN, among others). -/
def Value.encodes {δ : Type} (encodable : δ → Bool) : Value δ → Bool
  | Value.int _ => true
  | Value.string _ => true
  | Value.data d => encodable d

/-- The call `c.JSON(code, i)` with its error result: the object is encoded
before anything is written, so when a value of it cannot be encoded the call
returns the error of the encoder and no status and no body are written. -/
def Context.JSONResult {δ : Type} (c : Context) (encodable : δ → Bool) (code : Nat) (i : H δ) :
    Except String (Response δ) :=
  if i.all (fun kv => kv.2.encodes encodable) then
    Except.ok (c.JSON code i)
  else
    Except.error "json: unsupported value"

/-- The keys of a JSON object. -/
def keys {δ : Type} (h : H δ) : List String := h.map Prod.fst

/-- The function `Fail`. The Go `int` code is handed on as it is, no arithmetic is
done on it, so it is an `Int` here. The object holds an `int` and a `string`
only, which always encode, so the call writes its response. -/
def Fail {δ : Type} (c : Context) (code : Int) (message : String) : Response δ :=
  c.JSON 200 [
    ("code", Value.int code),
    ("message", Value.string message)
  ]

/-- The function `Success`. It returns what `c.JSON` returns: the response
written, or the error of the encoder when the payload cannot be encoded. -/
def Success {δ : Type} (encodable : δ → Bool) (c : Context) (data : δ) :
    Except String (Response δ) :=
  c.JSONResult encodable 200 [
    ("code", Value.int 1),
    ("message", Value.string "success"),
    ("data", Value.data data)
  ]

/-- The function `NotFound`. The object holds an `int` and a `string` only, which
always encode, so the call writes its response. -/
def NotFound {δ : Type} (c : Context) (message : String) : Response δ :=
  c.JSON 200 [
    ("code", Value.int (-1)),
    ("message", Value.string message)
  ]

/-! ## Route table -/

/-- The fields of `middleware.CORSConfig` that `SetupRoutes` sets; the skipper
is held by name. -/
structure CORSConfig where
  Skipper : String
  AllowOrigins : List String
  AllowMethods : List String
  deriving DecidableEq, Repr

/-- The middlewares `SetupRoutes` installs. `ErrorHandler` and `Auth` are
declared in another file of the package, `Recover` and `CORSWithConfig` in the
web framework; the table holds them by name. -/
inductive MiddlewareFunc where
  | Recover
  | CORSWithConfig (config : CORSConfig)
  | ErrorHandler
  | Auth
  deriving DecidableEq, Repr

/-- One entry of the router: method, path pattern, the handler (held by name,
the endpoints are declared in other files) and the route-level middleware the
handler was registered with. -/
structure Route where
  Method : String
  Path : String
  Handler : String
  middleware : List MiddlewareFunc
  deriving DecidableEq, Repr

/-- The state of an `*echo.Echo` that `SetupRoutes` builds: the global
middleware, in the order of the `Use` calls, and the registered routes. -/
structure Echo where
  HideBanner : Bool
  middleware : List MiddlewareFunc
  routes : List Route
  deriving DecidableEq, Repr

/-- The call `echo.New()`. -/
def Echo.New : Echo := { HideBanner := false, middleware := [], routes := [] }

/-- The call `e.Use(m)`: `m` is appended to the global middleware. -/
def Echo.Use (e : Echo) (m : MiddlewareFunc) : Echo :=
  { e with middleware := e.middleware ++ [m] }

/-- The call `e.Add(method, path, handler, m...)`. -/
def Echo.Add (e : Echo) (method path handler : String) (m : List MiddlewareFunc) : Echo :=
  { e with routes := e.routes ++
      [{ Method := method, Path := path, Handler := handler, middleware := m }] }

/-- The call `e.GET(path, h)`. -/
def Echo.GET (e : Echo) (path handler : String) : Echo := e.Add "GET" path handler []

/-- The call `e.POST(path, h)`. -/
def Echo.POST (e : Echo) (path handler : String) : Echo := e.Add "POST" path handler []

/-- The call `e.PUT(path, h)`. -/
def Echo.PUT (e : Echo) (path handler : String) : Echo := e.Add "PUT" path handler []

/-- The call `e.File(path, file)`: a `GET` route whose handler serves `file`. -/
def Echo.File (e : Echo) (path file : String) : Echo := e.GET path ("File " ++ file)

/-- The call `e.Static(pfx, root)`: a `GET` route on everything below `pfx`
whose handler serves the files of `root`. -/
def Echo.Static (e : Echo) (pfx root : String) : Echo := e.GET (pfx ++ "/*") ("Static " ++ root)

/-- An `*echo.Group`: a path prefix and the middleware of the group. -/
structure Group where
  pfx : String
  middleware : List MiddlewareFunc
  deriving DecidableEq, Repr

/-- The call `e.Group(pfx, m...)`. Only the registrations written in
`SetupRoutes` are kept in the table; the not-found catch-alls the framework adds
by itself for a group that has middleware are registered through `Group.Add` as
well and are left out. -/
def Echo.Group (_e : Echo) (pfx : String) (m : List MiddlewareFunc) : Group :=
  { pfx := pfx, middleware := m }

/-- The call `g.Add(method, path, handler)`: the route is registered on the
underlying `Echo` under the prefixed path, with the middleware of the group. -/
def Group.Add (g : Group) (e : Echo) (method path handler : String) : Echo :=
  e.Add method (g.pfx ++ path) handler g.middleware

/-- The call `g.GET(path, h)`. -/
def Group.GET (g : Group) (e : Echo) (path handler : String) : Echo := g.Add e "GET" path handler

/-- The call `g.POST(path, h)`. -/
def Group.POST (g : Group) (e : Echo) (path handler : String) : Echo := g.Add e "POST" path handler

/-- The call `g.PUT(path, h)`. -/
def Group.PUT (g : Group) (e : Echo) (path handler : String) : Echo := g.Add e "PUT" path handler

/-- The call `g.DELETE(path, h)`. -/
def Group.DELETE (g : Group) (e : Echo) (path handler : String) : Echo :=
  g.Add e "DELETE" path handler

/-- The configuration `SetupRoutes` passes to `middleware.CORSWithConfig`. -/
def corsConfig : CORSConfig :=
  { Skipper := "DefaultSkipper",
    AllowOrigins := ["*"],
    AllowMethods := ["GET", "HEAD", "PUT", "PATCH", "POST", "DELETE"] }

/-- The function `SetupRoutes`, statement by statement. -/
def SetupRoutes : Echo := Id.run do
  let mut e := Echo.New
  e := { e with HideBanner := true }

  e := e.File "/" "web/build/index.html"
  e := e.File "/logo.svg" "web/build/logo.svg"
  e := e.File "/favicon.ico" "web/build/favicon.ico"
  e := e.Static "/static" "web/build/static"

  e := e.Use MiddlewareFunc.Recover
  e := e.Use (MiddlewareFunc.CORSWithConfig corsConfig)
  e := e.Use MiddlewareFunc.ErrorHandler
  e := e.Use MiddlewareFunc.Auth

  e := e.POST "/login" "LoginEndpoint"
  e := e.POST "/loginWithTotp" "loginWithTotpEndpoint"

  e := e.GET "/tunnel" "TunEndpoint"
  e := e.GET "/ssh" "SSHEndpoint"

  e := e.POST "/logout" "LogoutEndpoint"
  e := e.POST "/change-password" "ChangePasswordEndpoint"
  e := e.POST "/reset-totp" "ResetTOTPEndpoint"
  e := e.POST "/confirm-totp" "ConfirmTOTPEndpoint"
  e := e.GET "/info" "InfoEndpoint"

  let users := e.Group "/users" []
  e := users.POST e "" "UserCreateEndpoint"
  e := users.GET e "/paging" "UserPagingEndpoint"
  e := users.PUT e "/:id" "UserUpdateEndpoint"
  e := users.DELETE e "/:id" "UserDeleteEndpoint"
  e := users.GET e "/:id" "UserGetEndpoint"

  let userGroups := e.Group "/user-groups" []
  e := userGroups.POST e "" "UserGroupCreateEndpoint"
  e := userGroups.GET e "/paging" "UserGroupPagingEndpoint"
  e := userGroups.PUT e "/:id" "UserGroupUpdateEndpoint"
  e := userGroups.DELETE e "/:id" "UserGroupDeleteEndpoint"
  e := userGroups.GET e "/:id" "UserGroupGetEndpoint"

  let assets := e.Group "/assets" [MiddlewareFunc.Auth]
  e := assets.GET e "" "AssetAllEndpoint"
  e := assets.POST e "" "AssetCreateEndpoint"
  e := assets.GET e "/paging" "AssetPagingEndpoint"
  e := assets.POST e "/:id/tcping" "AssetTcpingEndpoint"
  e := assets.PUT e "/:id" "AssetUpdateEndpoint"
  e := assets.DELETE e "/:id" "AssetDeleteEndpoint"
  e := assets.GET e "/:id" "AssetGetEndpoint"
  e := assets.POST e "/:id/change-owner" "AssetChangeOwnerEndpoint"

  e := e.GET "/tags" "AssetTagsEndpoint"

  let commands := e.Group "/commands" []
  e := commands.GET e "/paging" "CommandPagingEndpoint"
  e := commands.POST e "" "CommandCreateEndpoint"
  e := commands.PUT e "/:id" "CommandUpdateEndpoint"
  e := commands.DELETE e "/:id" "CommandDeleteEndpoint"
  e := commands.GET e "/:id" "CommandGetEndpoint"
  e := commands.POST e "/:id/change-owner" "CommandChangeOwnerEndpoint"

  let credentials := e.Group "/credentials" []
  e := credentials.GET e "" "CredentialAllEndpoint"
  e := credentials.GET e "/paging" "CredentialPagingEndpoint"
  e := credentials.POST e "" "CredentialCreateEndpoint"
  e := credentials.PUT e "/:id" "CredentialUpdateEndpoint"
  e := credentials.DELETE e "/:id" "CredentialDeleteEndpoint"
  e := credentials.GET e "/:id" "CredentialGetEndpoint"
  e := credentials.POST e "/:id/change-owner" "CredentialChangeOwnerEndpoint"

  let sessions := e.Group "/sessions" []
  e := sessions.POST e "" "SessionCreateEndpoint"
  e := sessions.GET e "/paging" "SessionPagingEndpoint"
  e := sessions.POST e "/:id/content" "SessionContentEndpoint"
  e := sessions.POST e "/:id/discontent" "SessionDiscontentEndpoint"
  e := sessions.POST e "/:id/resize" "SessionResizeEndpoint"
  e := sessions.POST e "/:id/upload" "SessionUploadEndpoint"
  e := sessions.GET e "/:id/download" "SessionDownloadEndpoint"
  e := sessions.GET e "/:id/ls" "SessionLsEndpoint"
  e := sessions.POST e "/:id/mkdir" "SessionMkDirEndpoint"
  e := sessions.DELETE e "/:id/rmdir" "SessionRmDirEndpoint"
  e := sessions.DELETE e "/:id/rm" "SessionRmEndpoint"
  e := sessions.DELETE e "/:id" "SessionDeleteEndpoint"
  e := sessions.GET e "/:id/recording" "SessionRecordingEndpoint"
  e := sessions.GET e "/:id" "SessionGetEndpoint"

  let resources := e.Group "/resources" []
  e := resources.GET e "/:id/assign" "ResourceGetAssignEndPoint"
  e := resources.POST e "/:id/assign" "ResourceOverwriteAssignEndPoint"
  e := resources.POST e "/remove" "ResourceRemoveByUserIdAssignEndPoint"
  e := resources.POST e "/add" "ResourceAddByUserIdAssignEndPoint"

  e := e.GET "/properties" "PropertyGetEndpoint"
  e := e.PUT "/properties" "PropertyUpdateEndpoint"

  e := e.GET "/overview/counter" "OverviewCounterEndPoint"
  e := e.GET "/overview/sessions" "OverviewSessionPoint"

  return e

/-- A handler, `echo.HandlerFunc`: from the request to its outcome, of any
type `ρ`. -/
abbrev HandlerFunc (ρ : Type) := Context → ρ

/-- The framework's `applyMiddleware(h, m...)`: the loop wraps `h` from the last
middleware to the first, so the first middleware of the list runs first. -/
def applyMiddleware {ρ : Type} (h : HandlerFunc ρ)
    (m : List (HandlerFunc ρ → HandlerFunc ρ)) : HandlerFunc ρ :=
  m.foldr (fun f next => f next) h

/-- The middlewares a request routed to `r` runs through before the handler of
`r`, in running order: the global ones, then the route-level ones. -/
def Echo.chain (e : Echo) (r : Route) : List MiddlewareFunc :=
  e.middleware ++ r.middleware

/-- The framework's `ServeHTTP` for a request the router has matched to the
route `r`: the handler is wrapped in the route-level middleware at registration
and in the global middleware at dispatch. `mw` and `handler` give the behaviour
of the middlewares and endpoints, which are declared elsewhere. -/
def Echo.ServeHTTP {ρ : Type} (e : Echo)
    (mw : MiddlewareFunc → HandlerFunc ρ → HandlerFunc ρ)
    (handler : String → HandlerFunc ρ) (r : Route) : HandlerFunc ρ :=
  applyMiddleware (applyMiddleware (handler r.Handler) (r.middleware.map mw))
    (e.middleware.map mw)

/-- The groups whose routes the interface lists as protected. -/
def protectedGroups : List String :=
  ["/users", "/user-groups", "/assets", "/commands", "/credentials", "/sessions", "/resources"]

/-- The standalone paths the interface lists as protected. -/
def protectedPaths : List String :=
  ["/properties", "/overview/counter", "/overview/sessions", "/tags", "/logout",
   "/change-password", "/reset-totp", "/confirm-totp", "/info"]

/-- Whether `path` is the group prefix `g` itself or lies below it. -/
def underGroup (g path : String) : Bool :=
  path = g || (g ++ "/").toList.isPrefixOf path.toList

/-- Whether a route is one of the protected routes. -/
def isProtected (r : Route) : Bool :=
  protectedPaths.contains r.Path || protectedGroups.any fun g => underGroup g r.Path

/-- The public allow-list: the root document, the two icons, the static
bundle, the two login endpoints, the tunnel and the terminal. -/
def publicRoutes : List (String × String) :=
  [("GET", "/"), ("GET", "/logo.svg"), ("GET", "/favicon.ico"), ("GET", "/static/*"),
   ("POST", "/login"), ("POST", "/loginWithTotp"), ("GET", "/tunnel"), ("GET", "/ssh")]

/-- Whether a route is on the public allow-list. -/
def isPublic (r : Route) : Bool :=
  publicRoutes.contains (r.Method, r.Path)

/-! ## Concrete requests and cache states -/

/-- A request that carries the token `tok-1` in its header. -/
def tokenRequest : Context :=
  { Method := "DELETE", Path := "/assets/42", Header := [("X-Auth-Token", ["tok-1"])], Query := [] }

/-- A request that carries one token in the header and another in the query. -/
def twoTokenRequest : Context :=
  { Method := "GET", Path := "/info", Header := [("X-Auth-Token", ["from-header"])],
    Query := [("X-Auth-Token", ["from-query"])] }

/-- A request whose token header is present but empty. -/
def emptyHeaderRequest : Context :=
  { Method := "GET", Path := "/info", Header := [("X-Auth-Token", [""])],
    Query := [("X-Auth-Token", ["from-query"])] }

/-- A request with no token header and no token query parameter. -/
def noTokenRequest : Context :=
  { Method := "GET", Path := "/tunnel", Header := [("Accept", ["*/*"])], Query := [] }

/-- An administrator. -/
def adminUser : User := { ID := "u-admin", Type_ := "admin" }

/-- An ordinary user. -/
def plainUser : User := { ID := "u-alice", Type_ := "user" }

/-- A cache in which `tok-1` is bound to the administrator. -/
def adminCache : Global :=
  { Cache := [("tok-1", CacheValue.authorization { Token := "tok-1", User := adminUser })],
    ops := [] }

/-- A cache in which `tok-1` is bound to the ordinary user. -/
def plainCache : Global :=
  { Cache := [("tok-1", CacheValue.authorization { Token := "tok-1", User := plainUser })],
    ops := [] }

/-- A cache with no entry. -/
def emptyCache : Global := { Cache := [], ops := [] }

/-- A cache in which the empty string is bound to the ordinary user. -/
def emptyKeyCache : Global :=
  { Cache := [("", CacheValue.authorization { Token := "", User := plainUser })], ops := [] }

/-- The route `SetupRoutes` registers for `GET /tunnel`. -/
def tunnelRoute : Route :=
  { Method := "GET", Path := "/tunnel", Handler := "TunEndpoint", middleware := [] }

/-- The route `SetupRoutes` registers for `GET /users/paging`. -/
def userPagingRoute : Route :=
  { Method := "GET", Path := "/users/paging", Handler := "UserPagingEndpoint", middleware := [] }

/-- Endpoints that answer with their own name. -/
def endpointName : String → HandlerFunc String := fun name _ => name

/-- Middlewares that all pass the request on. -/
def passAll : MiddlewareFunc → HandlerFunc String → HandlerFunc String :=
  fun _ next => next

/-- Middlewares that pass the request on, except that `Auth` rejects a request
whose token resolves to the empty string. -/
def tokenGate : MiddlewareFunc → HandlerFunc String → HandlerFunc String
  | MiddlewareFunc.Auth, next => fun c => if GetToken c = "" then "rejected" else next c
  | _, next => next

/-- Two payloads a handler can pass to `Success`: a number, and a Go channel. -/
inductive SamplePayload where
  | number (n : Int)
  | channel
  deriving DecidableEq, Repr

/-- The verdict of the JSON encoder on the sample payloads: it encodes a
number and refuses a channel. -/
def SamplePayload.encodable : SamplePayload → Bool
  | SamplePayload.number _ => true
  | SamplePayload.channel => false

/-! ## Auxiliary facts -/

theorem length_pos_iff_ne_empty (s : String) : s.length > 0 ↔ s ≠ "" := by
  cases s with
  | mk l => cases l <;> simp [String.length, String.ext_iff]

theorem firstValue_of_lookup_none (m : List (String × List String)) (key : String)
    (h : m.lookup key = none) : firstValue m key = "" := by
  simp [firstValue, h]

theorem GetToken_eq (c : Context) :
    GetToken c = if c.HeaderGet Token = "" then c.QueryParam Token else c.HeaderGet Token := by
  unfold GetToken
  by_cases h : c.HeaderGet Token = ""
  · simp [h]
  · have := (length_pos_iff_ne_empty (c.HeaderGet Token)).2 h
    simp [h, this]

theorem GetCurrentAccount_snd (c : Context) (g : Global) :
    (GetCurrentAccount c g).2 = { g with ops := g.ops ++ [CacheOp.get (GetToken c)] } := by
  unfold GetCurrentAccount Global.Get
  cases h : g.Cache.lookup (GetToken c) with
  | none => simp [h]
  | some v => cases v <;> simp [h]

theorem GetCurrentAccount_fst (c : Context) (g : Global) :
    (GetCurrentAccount c g).1 =
      match g.Cache.lookup (GetToken c) with
      | some (CacheValue.authorization a) => Except.ok (a.User, true)
      | some (CacheValue.other _) => Except.error "interface conversion"
      | none => Except.ok ({ ID := "", Type_ := "" }, false) := by
  unfold GetCurrentAccount Global.Get
  cases h : g.Cache.lookup (GetToken c) with
  | none => simp [h]
  | some v => cases v <;> simp [h]

theorem HasPermission_snd (TypeAdmin : String) (c : Context) (owner : String) (g : Global) :
    (HasPermission TypeAdmin c owner g).2 = (GetCurrentAccount c g).2 := by
  unfold HasPermission
  rcases h : GetCurrentAccount c g with ⟨r, g1⟩
  cases r with
  | error e => simp
  | ok p =>
    rcases p with ⟨account, found⟩
    cases found
    · simp
    · simp only [Bool.not_true, Bool.false_eq_true, if_false]
      split_ifs <;> rfl

theorem HasPermission_fst (TypeAdmin : String) (c : Context) (owner : String) (g : Global) :
    (HasPermission TypeAdmin c owner g).1 =
      match (GetCurrentAccount c g).1 with
      | Except.error e => Except.error e
      | Except.ok (account, found) =>
        Except.ok (found && (decide (TypeAdmin = account.Type_) || decide (owner = account.ID))) := by
  unfold HasPermission
  rcases h : GetCurrentAccount c g with ⟨r, g1⟩
  cases r with
  | error e => simp
  | ok p =>
    rcases p with ⟨account, found⟩
    cases found
    · simp
    · simp only [Bool.not_true, Bool.false_eq_true, if_false]
      split_ifs <;> simp_all

/-! ## Authorization decision -/

/-- C1: whenever `GetCurrentAccount` finds an identity whose type is the admin
type, `HasPermission` returns true for every owner string. -/
theorem HasPermission_admin (TypeAdmin : String) (c : Context) (g g1 : Global) (account : User)
    (hfound : GetCurrentAccount c g = (Except.ok (account, true), g1))
    (hadmin : account.Type_ = TypeAdmin) (owner : String) :
    (HasPermission TypeAdmin c owner g).1 = Except.ok true := by
  rw [HasPermission_fst, hfound]
  simp [hadmin]

/-- C1 at the administrator's token: the empty owner and a foreign owner are
both granted. -/
theorem HasPermission_admin_witness :
    GetCurrentAccount tokenRequest adminCache =
        (Except.ok (adminUser, true),
          { adminCache with ops := [CacheOp.get "tok-1"] }) ∧
      adminUser.Type_ = "admin" ∧
      (HasPermission "admin" tokenRequest "" adminCache).1 = Except.ok true ∧
      (HasPermission "admin" tokenRequest "u-alice" adminCache).1 = Except.ok true :=
  ⟨rfl, rfl,
    HasPermission_admin "admin" tokenRequest adminCache _ adminUser rfl rfl "",
    HasPermission_admin "admin" tokenRequest adminCache _ adminUser rfl rfl "u-alice"⟩

/-- C2: whenever `GetCurrentAccount` finds an identity whose type is not the
admin type, `HasPermission` returns the result of the exact string comparison of
the owner with the user's ID: true if and only if they are equal. -/
theorem HasPermission_owner (TypeAdmin : String) (c : Context) (g g1 : Global) (account : User)
    (hfound : GetCurrentAccount c g = (Except.ok (account, true), g1))
    (hplain : account.Type_ ≠ TypeAdmin) (owner : String) :
    (HasPermission TypeAdmin c owner g).1 = Except.ok (decide (owner = account.ID)) ∧
      ((HasPermission TypeAdmin c owner g).1 = Except.ok true ↔ owner = account.ID) := by
  have hne : ¬ TypeAdmin = account.Type_ := fun h => hplain h.symm
  rw [HasPermission_fst, hfound]
  simp [hne]

/-- C2 at an ordinary user's token: the own ID is granted, an ID that differs in
letter case only is refused. -/
theorem HasPermission_owner_witness :
    GetCurrentAccount tokenRequest plainCache =
        (Except.ok (plainUser, true),
          { plainCache with ops := [CacheOp.get "tok-1"] }) ∧
      plainUser.Type_ ≠ "admin" ∧
      (HasPermission "admin" tokenRequest "u-alice" plainCache).1 = Except.ok true ∧
      (HasPermission "admin" tokenRequest "U-Alice" plainCache).1 = Except.ok false :=
  ⟨rfl, by decide,
    ((HasPermission_owner "admin" tokenRequest plainCache _ plainUser rfl (by decide)
      "u-alice").2).2 rfl,
    (HasPermission_owner "admin" tokenRequest plainCache _ plainUser rfl (by decide)
      "U-Alice").1⟩

/-- C3: whenever `GetCurrentAccount` returns not-found, the resolved token is not
a key of the cache and `HasPermission` returns false for every owner string. -/
theorem HasPermission_not_found (TypeAdmin : String) (c : Context) (g : Global) (account : User)
    (hnone : (GetCurrentAccount c g).1 = Except.ok (account, false)) (owner : String) :
    g.Cache.lookup (GetToken c) = none ∧
      (HasPermission TypeAdmin c owner g).1 = Except.ok false := by
  constructor
  · rw [GetCurrentAccount_fst] at hnone
    cases h : g.Cache.lookup (GetToken c) with
    | none => rfl
    | some v => cases v <;> simp [h] at hnone
  · rw [HasPermission_fst, hnone]
    simp

/-- C3 at an unknown token: not even the empty owner is granted. -/
theorem HasPermission_not_found_witness :
    (GetCurrentAccount tokenRequest emptyCache).1 =
        Except.ok ({ ID := "", Type_ := "" }, false) ∧
      emptyCache.Cache.lookup (GetToken tokenRequest) = none ∧
      (HasPermission "admin" tokenRequest "" emptyCache).1 = Except.ok false :=
  ⟨rfl, HasPermission_not_found "admin" tokenRequest emptyCache _ rfl ""⟩

/-! ## Token resolver -/

/-- C4: `GetToken` returns the header value whenever it is not empty, whatever
the query holds; it returns the query parameter value whenever the header is
absent or empty, and the empty string when the query parameter is absent as
well; it reads nothing but the token entry of the header and of the query. -/
theorem GetToken_precedence (c : Context) :
    (c.HeaderGet Token ≠ "" → GetToken c = c.HeaderGet Token) ∧
      (c.HeaderGet Token = "" → GetToken c = c.QueryParam Token) ∧
      (c.Header.lookup Token = none → GetToken c = c.QueryParam Token) ∧
      (c.Header.lookup Token = none → c.Query.lookup Token = none → GetToken c = "") ∧
      (∀ d : Context, d.Header.lookup Token = c.Header.lookup Token →
        d.Query.lookup Token = c.Query.lookup Token → GetToken d = GetToken c) := by
  refine ⟨fun h => ?_, fun h => ?_, fun h => ?_, fun h hq => ?_, fun d hh hq => ?_⟩
  · rw [GetToken_eq, if_neg h]
  · rw [GetToken_eq, if_pos h]
  · have h0 : c.HeaderGet Token = "" := firstValue_of_lookup_none _ _ h
    rw [GetToken_eq, if_pos h0]
  · have h0 : c.HeaderGet Token = "" := firstValue_of_lookup_none _ _ h
    have h1 : c.QueryParam Token = "" := firstValue_of_lookup_none _ _ hq
    rw [GetToken_eq, if_pos h0, h1]
  · have h0 : d.HeaderGet Token = c.HeaderGet Token := by
      simp [Context.HeaderGet, firstValue, hh]
    have h1 : d.QueryParam Token = c.QueryParam Token := by
      simp [Context.QueryParam, firstValue, hq]
    rw [GetToken_eq, GetToken_eq, h0, h1]

/-- C4 on three requests: header and query differ, the header is empty, and
neither is there. -/
theorem GetToken_precedence_witness :
    GetToken twoTokenRequest = "from-header" ∧
      GetToken emptyHeaderRequest = "from-query" ∧
      GetToken noTokenRequest = "" :=
  ⟨(GetToken_precedence twoTokenRequest).1 (by decide),
    (GetToken_precedence emptyHeaderRequest).2.1 rfl,
    (GetToken_precedence noTokenRequest).2.2.2.1 rfl rfl⟩

/-! ## Identity lookup -/

/-- C5, as stated, fails: for a request without any token `GetCurrentAccount`
does look the empty string up in the cache (the read is in the log even when the
cache is empty), and it finds an identity when the empty string is a key. -/
theorem GetCurrentAccount_empty_token_lookup :
    noTokenRequest.Header.lookup Token = none ∧
      noTokenRequest.Query.lookup Token = none ∧
      GetToken noTokenRequest = "" ∧
      (GetCurrentAccount noTokenRequest emptyCache).2.ops = [CacheOp.get ""] ∧
      GetCurrentAccount noTokenRequest emptyKeyCache =
        (Except.ok (plainUser, true), { emptyKeyCache with ops := [CacheOp.get ""] }) :=
  ⟨rfl, rfl, rfl, rfl, rfl⟩

/-- C5, amended: for a request with no token header and no token query
parameter the token resolves to the empty string, `GetCurrentAccount` makes one
cache lookup, of the empty string, and returns not-found exactly when the empty
string is not a key of the cache. -/
theorem GetCurrentAccount_no_token (c : Context) (g : Global)
    (hh : c.Header.lookup Token = none) (hq : c.Query.lookup Token = none) :
    GetToken c = "" ∧
      (GetCurrentAccount c g).2 = { g with ops := g.ops ++ [CacheOp.get ""] } ∧
      ((GetCurrentAccount c g).1 = Except.ok ({ ID := "", Type_ := "" }, false) ↔
        g.Cache.lookup "" = none) := by
  have ht : GetToken c = "" := by
    have h0 : c.HeaderGet Token = "" := firstValue_of_lookup_none _ _ hh
    have h1 : c.QueryParam Token = "" := firstValue_of_lookup_none _ _ hq
    rw [GetToken_eq, if_pos h0, h1]
  refine ⟨ht, ?_, ?_⟩
  · rw [GetCurrentAccount_snd, ht]
  · rw [GetCurrentAccount_fst, ht]
    cases h : g.Cache.lookup "" with
    | none => simp
    | some v => cases v <;> simp

/-- C5, amended, on a request without token and a cache that has entries but
none under the empty string. -/
theorem GetCurrentAccount_no_token_witness :
    noTokenRequest.Header.lookup Token = none ∧
      noTokenRequest.Query.lookup Token = none ∧
      GetToken noTokenRequest = "" ∧
      (GetCurrentAccount noTokenRequest plainCache).2 =
        { plainCache with ops := [CacheOp.get ""] } ∧
      (GetCurrentAccount noTokenRequest plainCache).1 =
        Except.ok ({ ID := "", Type_ := "" }, false) :=
  ⟨rfl, rfl, (GetCurrentAccount_no_token noTokenRequest plainCache rfl rfl).1,
    (GetCurrentAccount_no_token noTokenRequest plainCache rfl rfl).2.1,
    (GetCurrentAccount_no_token noTokenRequest plainCache rfl rfl).2.2.2 rfl⟩

/-- C6: when the resolved token is bound to an `Authorization`,
`GetCurrentAccount` returns its `User` with `true`; in every case
`GetCurrentAccount` and `HasPermission` leave the entries of the cache as they
were and add exactly one call to the log, a read of the resolved token, so each
makes one cache read and no cache write. -/
theorem GetCurrentAccount_frame (TypeAdmin : String) (c : Context) (g : Global)
    (owner : String) :
    (∀ a : Authorization, g.Cache.lookup (GetToken c) = some (CacheValue.authorization a) →
        (GetCurrentAccount c g).1 = Except.ok (a.User, true)) ∧
      (GetCurrentAccount c g).2.Cache = g.Cache ∧
      (GetCurrentAccount c g).2.ops = g.ops ++ [CacheOp.get (GetToken c)] ∧
      reads (GetCurrentAccount c g).2.ops = reads g.ops + 1 ∧
      writes (GetCurrentAccount c g).2.ops = writes g.ops ∧
      (HasPermission TypeAdmin c owner g).2.Cache = g.Cache ∧
      (HasPermission TypeAdmin c owner g).2.ops = g.ops ++ [CacheOp.get (GetToken c)] ∧
      reads (HasPermission TypeAdmin c owner g).2.ops = reads g.ops + 1 ∧
      writes (HasPermission TypeAdmin c owner g).2.ops = writes g.ops := by
  refine ⟨fun a ha => ?_, ?_, ?_, ?_, ?_, ?_, ?_, ?_, ?_⟩
  · rw [GetCurrentAccount_fst, ha]
  all_goals
    simp [HasPermission_snd, GetCurrentAccount_snd, reads, writes, List.filter_append]

/-- C6 at the ordinary user's token. -/
theorem GetCurrentAccount_frame_witness :
    plainCache.Cache.lookup (GetToken tokenRequest) =
        some (CacheValue.authorization { Token := "tok-1", User := plainUser }) ∧
      (GetCurrentAccount tokenRequest plainCache).1 = Except.ok (plainUser, true) ∧
      (GetCurrentAccount tokenRequest plainCache).2.Cache = plainCache.Cache ∧
      (HasPermission "admin" tokenRequest "u-bob" plainCache).2.ops = [CacheOp.get "tok-1"] :=
  ⟨rfl, (GetCurrentAccount_frame "admin" tokenRequest plainCache "u-bob").1 _ rfl,
    (GetCurrentAccount_frame "admin" tokenRequest plainCache "u-bob").2.1,
    (GetCurrentAccount_frame "admin" tokenRequest plainCache "u-bob").2.2.2.2.2.2.1⟩

/-! ## Response envelope -/

/-- C7, as stated, fails: `Success` called with a payload the JSON encoder
refuses (here a channel) returns the error of the encoder; no status 200 and no
envelope are emitted. -/
theorem Success_unencodable_payload :
    SamplePayload.encodable SamplePayload.channel = false ∧
      Success SamplePayload.encodable noTokenRequest SamplePayload.channel =
        Except.error "json: unsupported value" :=
  ⟨rfl, rfl⟩

/-- C7, amended: for every data value the JSON encoder can encode, `Success`
emits status 200 and a body with exactly the keys `code`, `message` and `data`,
holding 1, the text success and the payload; for a data value the encoder
refuses, `Success` returns the error of the encoder and emits nothing. For every
code and message, `Fail` emits status 200 and a body with exactly the keys
`code` and `message`, holding the given code and message; `NotFound` emits
status 200 and a body with exactly the keys `code` and `message`, holding -1 and
the given message; the objects of `Fail` and `NotFound` always encode. -/
theorem envelope_shapes {δ : Type} (encodable : δ → Bool) (c : Context) (data : δ)
    (code : Int) (message : String) :
    (encodable data = true →
        ∃ r : Response δ, Success encodable c data = Except.ok r ∧
          r.status = 200 ∧
          (∀ k, k ∈ keys r.body ↔ k = "code" ∨ k = "message" ∨ k = "data") ∧
          (keys r.body).Nodup ∧
          r.body.lookup "code" = some (Value.int 1) ∧
          r.body.lookup "message" = some (Value.string "success") ∧
          r.body.lookup "data" = some (Value.data data)) ∧
      (encodable data = false →
        Success encodable c data = Except.error "json: unsupported value") ∧
      (c.JSONResult encodable 200 (Fail c code message : Response δ).body =
          Except.ok (Fail c code message) ∧
        (Fail c code message : Response δ).status = 200 ∧
        (∀ k, k ∈ keys (Fail c code message : Response δ).body ↔ k = "code" ∨ k = "message") ∧
        (keys (Fail c code message : Response δ).body).Nodup ∧
        (Fail c code message : Response δ).body.lookup "code" = some (Value.int code) ∧
        (Fail c code message : Response δ).body.lookup "message" =
          some (Value.string message) ∧
        (Fail c code message : Response δ).body.lookup "data" = none) ∧
      (c.JSONResult encodable 200 (NotFound c message : Response δ).body =
          Except.ok (NotFound c message) ∧
        (NotFound c message : Response δ).status = 200 ∧
        (∀ k, k ∈ keys (NotFound c message : Response δ).body ↔ k = "code" ∨ k = "message") ∧
        (keys (NotFound c message : Response δ).body).Nodup ∧
        (NotFound c message : Response δ).body.lookup "code" = some (Value.int (-1)) ∧
        (NotFound c message : Response δ).body.lookup "message" =
          some (Value.string message) ∧
        (NotFound c message : Response δ).body.lookup "data" = none) := by
  refine ⟨fun henc => ⟨c.JSON 200 [("code", Value.int 1), ("message", Value.string "success"),
      ("data", Value.data data)], ?_, rfl, ?_, ?_, rfl, rfl, rfl⟩, fun henc => ?_,
    ⟨?_, rfl, ?_, ?_, rfl, rfl, rfl⟩, ⟨?_, rfl, ?_, ?_, rfl, rfl, rfl⟩⟩
  all_goals
    first
      | simp [Success, Context.JSONResult, Context.JSON, Value.encodes, keys, henc]
      | simp [Fail, NotFound, Context.JSONResult, Context.JSON, Value.encodes, keys]

/-- C7, amended, on the sample payloads: a number is wrapped in the success
envelope, a channel makes `Success` return the error. -/
theorem envelope_shapes_witness :
    SamplePayload.encodable (SamplePayload.number 7) = true ∧
      Success SamplePayload.encodable noTokenRequest (SamplePayload.number 7) =
        Except.ok { status := 200,
                    body := [("code", Value.int 1), ("message", Value.string "success"),
                      ("data", Value.data (SamplePayload.number 7))] } ∧
      SamplePayload.encodable SamplePayload.channel = false ∧
      Success SamplePayload.encodable noTokenRequest SamplePayload.channel =
        Except.error "json: unsupported value" ∧
      (Fail noTokenRequest (-2) "bad" : Response SamplePayload).body.lookup "data" = none :=
  ⟨rfl, rfl, rfl,
    (envelope_shapes SamplePayload.encodable noTokenRequest SamplePayload.channel (-2) "bad").2.1
      rfl,
    (envelope_shapes SamplePayload.encodable noTokenRequest SamplePayload.channel (-2)
      "bad").2.2.1.2.2.2.2.2.2⟩

/-- C8, as stated, fails: `Fail` called with the code 1 emits the same `code`
field as `Success`. -/
theorem Fail_code_one :
    (Fail noTokenRequest 1 "bad" : Response Unit).body.lookup "code" = some (Value.int 1) ∧
      (Success (fun _ => true) noTokenRequest ()).map (fun r => r.body.lookup "code") =
        Except.ok ((Fail noTokenRequest 1 "bad" : Response Unit).body.lookup "code") :=
  ⟨rfl, rfl⟩

/-- C8, amended: the `code` field of a `Fail` envelope is the code the caller
passed, so it differs from the success sentinel 1 exactly when the caller passed
a code other than 1; the `code` field of a `NotFound` envelope is -1 and always
differs from 1. -/
theorem failure_code_distinct {δ : Type} (c : Context) (code : Int) (message : String) :
    (Fail c code message : Response δ).body.lookup "code" = some (Value.int code) ∧
      ((Fail c code message : Response δ).body.lookup "code" ≠ some (Value.int 1) ↔ code ≠ 1) ∧
      (NotFound c message : Response δ).body.lookup "code" = some (Value.int (-1)) ∧
      (NotFound c message : Response δ).body.lookup "code" ≠ some (Value.int 1) := by
  refine ⟨rfl, ?_, rfl, ?_⟩
  · have h : (Fail c code message : Response δ).body.lookup "code" = some (Value.int code) := rfl
    rw [h]
    simp
  · have h : (NotFound c message : Response δ).body.lookup "code" = some (Value.int (-1)) := rfl
    rw [h]
    simp

/-- C8, amended, at the code -2. -/
theorem failure_code_distinct_witness :
    (Fail noTokenRequest (-2) "bad" : Response Unit).body.lookup "code" ≠ some (Value.int 1) ∧
      (NotFound noTokenRequest "missing" : Response Unit).body.lookup "code" ≠
        some (Value.int 1) :=
  ⟨(failure_code_distinct noTokenRequest (-2) "bad").2.1.2 (by decide),
    (failure_code_distinct noTokenRequest (-2) "missing").2.2.2⟩

/-! ## Route table -/

theorem SetupRoutes_middleware :
    SetupRoutes.middleware =
      [MiddlewareFunc.Recover, MiddlewareFunc.CORSWithConfig corsConfig,
        MiddlewareFunc.ErrorHandler, MiddlewareFunc.Auth] := by
  decide

theorem SetupRoutes_route_middleware :
    ∀ r ∈ SetupRoutes.routes,
      (isPublic r = true → r.middleware = []) ∧
        (r.middleware = [] ∨ r.middleware = [MiddlewareFunc.Auth]) := by
  decide

theorem ServeHTTP_SetupRoutes {ρ : Type} (mw : MiddlewareFunc → HandlerFunc ρ → HandlerFunc ρ)
    (handler : String → HandlerFunc ρ) (r : Route) :
    SetupRoutes.ServeHTTP mw handler r =
      mw MiddlewareFunc.Recover (mw (MiddlewareFunc.CORSWithConfig corsConfig)
        (mw MiddlewareFunc.ErrorHandler (mw MiddlewareFunc.Auth
          (applyMiddleware (handler r.Handler) (r.middleware.map mw))))) := by
  unfold Echo.ServeHTTP
  rw [SetupRoutes_middleware]
  simp [applyMiddleware]

/-- C9: every protected route of the table runs behind the chain `Recover`,
`CORS`, `ErrorHandler`, `Auth`, in that order (the routes of the assets group
carry `Auth` a second time, at route level): the handler is served wrapped in
that chain, so it is only reachable through the `next` of `Auth`, and when
`Auth` never calls `next` the outcome does not depend on the handler. The table
has 59 protected routes, at least one for every protected path and group. -/
theorem protected_routes_behind_Auth :
    (∀ r ∈ SetupRoutes.routes, isProtected r = true →
      (SetupRoutes.chain r =
          [MiddlewareFunc.Recover, MiddlewareFunc.CORSWithConfig corsConfig,
            MiddlewareFunc.ErrorHandler, MiddlewareFunc.Auth] ∨
        SetupRoutes.chain r =
          [MiddlewareFunc.Recover, MiddlewareFunc.CORSWithConfig corsConfig,
            MiddlewareFunc.ErrorHandler, MiddlewareFunc.Auth, MiddlewareFunc.Auth]) ∧
      ∀ (ρ : Type) (mw : MiddlewareFunc → HandlerFunc ρ → HandlerFunc ρ)
        (handler : String → HandlerFunc ρ),
        SetupRoutes.ServeHTTP mw handler r =
            mw MiddlewareFunc.Recover (mw (MiddlewareFunc.CORSWithConfig corsConfig)
              (mw MiddlewareFunc.ErrorHandler (mw MiddlewareFunc.Auth
                (applyMiddleware (handler r.Handler) (r.middleware.map mw))))) ∧
          ((∀ n1 n2 : HandlerFunc ρ, mw MiddlewareFunc.Auth n1 = mw MiddlewareFunc.Auth n2) →
            ∀ other : String → HandlerFunc ρ,
              SetupRoutes.ServeHTTP mw handler r = SetupRoutes.ServeHTTP mw other r)) ∧
      (SetupRoutes.routes.filter isProtected).length = 59 ∧
      (∀ p ∈ protectedPaths, ∃ r ∈ SetupRoutes.routes, r.Path = p) ∧
      (∀ g ∈ protectedGroups, ∃ r ∈ SetupRoutes.routes, underGroup g r.Path = true) := by
  refine ⟨fun r hr _ => ⟨?_, fun ρ mw handler => ⟨ServeHTTP_SetupRoutes mw handler r, ?_⟩⟩,
    by decide, by decide, by decide⟩
  · unfold Echo.chain
    rw [SetupRoutes_middleware]
    rcases (SetupRoutes_route_middleware r hr).2 with h | h <;> simp [h]
  · intro hclosed other
    rw [ServeHTTP_SetupRoutes, ServeHTTP_SetupRoutes, hclosed _ _]

/-- C9 at `GET /users/paging`, with an `Auth` that rejects a request without
token: the request is rejected and the endpoint does not answer. -/
theorem protected_routes_behind_Auth_witness :
    userPagingRoute ∈ SetupRoutes.routes ∧ isProtected userPagingRoute = true ∧
      SetupRoutes.chain userPagingRoute =
        [MiddlewareFunc.Recover, MiddlewareFunc.CORSWithConfig corsConfig,
          MiddlewareFunc.ErrorHandler, MiddlewareFunc.Auth] ∧
      SetupRoutes.ServeHTTP tokenGate endpointName userPagingRoute noTokenRequest = "rejected" :=
  ⟨by decide, by decide,
    ((protected_routes_behind_Auth.1 userPagingRoute (by decide) (by decide)).1).resolve_right
      (by decide),
    (congrFun ((protected_routes_behind_Auth.1 userPagingRoute (by decide) (by decide)).2
      String tokenGate endpointName).1 noTokenRequest).trans rfl⟩

/-- C10, as stated, fails: the public route `GET /tunnel` is served through the
same chain as every other route, `Auth` included, so for a request without token
the outcome is decided by `Auth`: the endpoint answers when `Auth` passes the
request on, and does not when `Auth` rejects a request without token. -/
theorem public_route_through_Auth :
    tunnelRoute ∈ SetupRoutes.routes ∧ isPublic tunnelRoute = true ∧
      GetToken noTokenRequest = "" ∧
      SetupRoutes.chain tunnelRoute =
        [MiddlewareFunc.Recover, MiddlewareFunc.CORSWithConfig corsConfig,
          MiddlewareFunc.ErrorHandler, MiddlewareFunc.Auth] ∧
      SetupRoutes.ServeHTTP passAll endpointName tunnelRoute noTokenRequest = "TunEndpoint" ∧
      SetupRoutes.ServeHTTP tokenGate endpointName tunnelRoute noTokenRequest = "rejected" :=
  ⟨by decide, by decide, by decide, by decide, by decide, by decide⟩

/-- C10, amended: every route of the public allow-list is registered without
route-level middleware and is served through the global chain `Recover`, `CORS`,
`ErrorHandler`, `Auth`, with its handler as the `next` of `Auth`; when every
middleware of the chain passes the request on, the handler produces the
outcome. Every entry of the allow-list has its route in the table. -/
theorem public_routes_chain :
    (∀ r ∈ SetupRoutes.routes, isPublic r = true →
      r.middleware = [] ∧
      SetupRoutes.chain r =
        [MiddlewareFunc.Recover, MiddlewareFunc.CORSWithConfig corsConfig,
          MiddlewareFunc.ErrorHandler, MiddlewareFunc.Auth] ∧
      ∀ (ρ : Type) (mw : MiddlewareFunc → HandlerFunc ρ → HandlerFunc ρ)
        (handler : String → HandlerFunc ρ),
        SetupRoutes.ServeHTTP mw handler r =
            mw MiddlewareFunc.Recover (mw (MiddlewareFunc.CORSWithConfig corsConfig)
              (mw MiddlewareFunc.ErrorHandler (mw MiddlewareFunc.Auth (handler r.Handler)))) ∧
          ((∀ (m : MiddlewareFunc) (next : HandlerFunc ρ), mw m next = next) →
            SetupRoutes.ServeHTTP mw handler r = handler r.Handler)) ∧
      (∀ p ∈ publicRoutes, ∃ r ∈ SetupRoutes.routes, (r.Method, r.Path) = p) := by
  refine ⟨fun r hr hpub => ?_, by decide⟩
  have hm : r.middleware = [] := (SetupRoutes_route_middleware r hr).1 hpub
  have hs : ∀ (ρ : Type) (mw : MiddlewareFunc → HandlerFunc ρ → HandlerFunc ρ)
      (handler : String → HandlerFunc ρ),
      SetupRoutes.ServeHTTP mw handler r =
        mw MiddlewareFunc.Recover (mw (MiddlewareFunc.CORSWithConfig corsConfig)
          (mw MiddlewareFunc.ErrorHandler (mw MiddlewareFunc.Auth (handler r.Handler)))) := by
    intro ρ mw handler
    rw [ServeHTTP_SetupRoutes, hm]
    rfl
  refine ⟨hm, ?_, fun ρ mw handler => ⟨hs ρ mw handler, fun hpass => ?_⟩⟩
  · unfold Echo.chain
    rw [SetupRoutes_middleware, hm]
    rfl
  · rw [hs, hpass, hpass, hpass, hpass]

/-- C10, amended, at `GET /tunnel` with middlewares that pass every request
on: the endpoint answers. -/
theorem public_routes_chain_witness :
    tunnelRoute ∈ SetupRoutes.routes ∧ isPublic tunnelRoute = true ∧
      tunnelRoute.middleware = [] ∧
      SetupRoutes.ServeHTTP passAll endpointName tunnelRoute noTokenRequest = "TunEndpoint" :=
  ⟨by decide, by decide,
    (public_routes_chain.1 tunnelRoute (by decide) (by decide)).1,
    congrFun (((public_routes_chain.1 tunnelRoute (by decide) (by decide)).2.2
      String passAll endpointName).2 (fun _ _ => rfl)) noTokenRequest⟩

end NextTerminal
